import Mathlib

/- Shallow embedding of the appointment scheduling core of the DOCNET
backend (Django/DRF).  The definitions below are translated from
app/appointments/models.py, app/appointments/serializers.py,
app/appointments/views.py, app/appointments/choices.py and
app/users/models.py.  Datetimes are modelled as integers (instants on a
global timeline); the server clock is an explicit `now` parameter.
Django model equality and ORM foreign-key filters compare primary keys,
so all record comparisons below compare `id` fields. -/

/- app/appointments/choices.py : AppointmentStatus -/
inductive AppointmentStatus
  | scheduled
  | confirmed
  | in_progress
  | completed
  | cancelled
  | no_show
  | rescheduled
deriving DecidableEq, Repr

/- app/appointments/choices.py : AppointmentType values -/
def appointmentTypeChoices : List String :=
  ["consultation", "follow_up", "urgent_care", "mental_health",
   "general_checkup", "specialist"]

/- app/appointments/choices.py : CancelledBy values -/
def cancelledByChoices : List String := ["patient", "doctor", "system"]

/- app/doctors/models.py : Doctor(user OneToOne, hospital FK nullable) -/
structure Doctor where
  id : Nat
  user : Nat
  hospital : Option Nat
deriving DecidableEq, Repr

/- app/patients/models.py : Patient(user OneToOne) -/
structure Patient where
  id : Nat
  user : Nat
deriving DecidableEq, Repr

/- app/appointments/models.py : Appointment fields.  Nullable text
fields are Option String; Python truthiness treats both None and the
empty string as absent, which the operations below reproduce. -/
structure Appointment where
  id : Nat
  patient : Patient
  doctor : Doctor
  appointment_type : String
  status : AppointmentStatus
  scheduled_start_time : Int
  scheduled_end_time : Int
  timezone : String
  meet : Option Nat
  technical_issues_reported : Option String
  reason : String
  notes : Option String
  cancellation_reason : Option String
  cancelled_by : Option String
  created_by : Option Nat
deriving DecidableEq, Repr

/- app/users/models.py : User.  The reverse one-to-one attributes
doctor_profile / patient_profile / hospital_profile / admin_profile are
present exactly when the corresponding Option is some; hospital and
admin profiles are reduced to their primary keys here. -/
structure User where
  role : String
  doctor_profile : Option Doctor
  patient_profile : Option Patient
  hospital_profile : Option Nat
  admin_profile : Option Nat
  is_staff : Bool
deriving DecidableEq, Repr

/- app/users/models.py : User.profile = getattr(self, role + "_profile",
None); the result is a role-dependent object, modelled as a tagged
union. -/
inductive ProfileRef
  | doctorP (d : Doctor)
  | patientP (p : Patient)
  | hospitalP (h : Nat)
  | adminP (x : Nat)
deriving DecidableEq, Repr

def User.profile (u : User) : Option ProfileRef :=
  if u.role == "doctor" then u.doctor_profile.map ProfileRef.doctorP
  else if u.role == "patient" then u.patient_profile.map ProfileRef.patientP
  else if u.role == "hospital" then u.hospital_profile.map ProfileRef.hospitalP
  else if u.role == "admin" then u.admin_profile.map ProfileRef.adminP
  else none

/- app/appointments/models.py : computed properties -/
def Appointment.duration (a : Appointment) : Int :=
  a.scheduled_end_time - a.scheduled_start_time

def Appointment.is_upcoming (a : Appointment) (now : Int) : Bool :=
  decide (a.scheduled_start_time > now) &&
    (a.status == .scheduled || a.status == .confirmed)

def Appointment.is_past (a : Appointment) (now : Int) : Bool :=
  decide (a.scheduled_end_time < now)

def Appointment.can_cancel (a : Appointment) (now : Int) : Bool :=
  (a.status == .scheduled || a.status == .confirmed) && !(a.is_past now)

def Appointment.can_reschedule (a : Appointment) (now : Int) : Bool :=
  (a.status == .scheduled || a.status == .confirmed) && !(a.is_past now)

/- Conflict query of AppointmentCreateSerializer.validate: existing
appointments of the doctor whose interval satisfies
scheduled_start_time < new end and scheduled_end_time > new start while
in an active status. -/
def activeStatuses : List AppointmentStatus :=
  [.scheduled, .confirmed, .in_progress]

def overlapsActive (a : Appointment) (d : Doctor) (s e : Int) : Bool :=
  a.doctor.id == d.id &&
    decide (a.scheduled_start_time < e) &&
    decide (a.scheduled_end_time > s) &&
    activeStatuses.contains a.status

def conflictExists (existing : List Appointment) (d : Doctor) (s e : Int) : Bool :=
  existing.any (fun a => overlapsActive a d s e)

/- Input of AppointmentCreateSerializer: the writable fields.  patient
and doctor are optional in the request body. -/
structure CreateInput where
  patient : Option Patient
  doctor : Option Doctor
  appointment_type : String
  scheduled_start_time : Int
  scheduled_end_time : Int
  timezone : String
  reason : String
  notes : Option String
deriving DecidableEq, Repr

inductive CreateError
  | authRequired
  | atLeastOneRequired
  | patientRequiredForDoctor
  | doctorRequiredForPatient
  | bothRequired
  | endNotAfterStart
  | startInPast
  | doctorUnavailable
deriving DecidableEq, Repr

/- Role dispatch of AppointmentCreateSerializer.validate: a doctor
caller must supply the patient and has the doctor side overridden with
the role-linked profile; a patient caller dually; any other caller must
supply both sides explicitly. -/
def resolveParties (user : User) (data : CreateInput) :
    Except CreateError CreateInput :=
  if user.role == "doctor" then
    if data.patient.isNone then .error .patientRequiredForDoctor
    else .ok { data with doctor := user.doctor_profile }
  else if user.role == "patient" then
    if data.doctor.isNone then .error .doctorRequiredForPatient
    else .ok { data with patient := user.patient_profile }
  else
    if data.doctor.isNone || data.patient.isNone then .error .bothRequired
    else .ok data

/- AppointmentCreateSerializer.validate, everything up to but not
including the availability query, in source order: authentication,
at-least-one-of check, role dispatch, end after start, start not in the
past. -/
def validate_pre (user? : Option User) (data : CreateInput) (now : Int) :
    Except CreateError CreateInput :=
  match user? with
  | none => .error .authRequired
  | some user =>
    if data.doctor.isNone && data.patient.isNone then .error .atLeastOneRequired
    else
      match resolveParties user data with
      | .error e => .error e
      | .ok d2 =>
        if d2.scheduled_end_time ≤ d2.scheduled_start_time then
          .error .endNotAfterStart
        else if d2.scheduled_start_time < now then .error .startInPast
        else .ok d2

/- AppointmentCreateSerializer.validate in full: the checks above, then
the availability query against the resolved doctor (skipped when the
resolved doctor is absent, mirroring the if on data.get). -/
def validateCreate (user? : Option User) (data : CreateInput) (now : Int)
    (existing : List Appointment) : Except CreateError CreateInput :=
  match validate_pre user? data now with
  | .error e => .error e
  | .ok d2 =>
    match d2.doctor with
    | some doc =>
      if conflictExists existing doc d2.scheduled_start_time d2.scheduled_end_time
      then .error .doctorUnavailable
      else .ok d2
    | none => .ok d2

/- One create_room plus its add_member calls on the external meet
collaborator (app/meet/models.py : Meet.members). -/
structure MeetCreation where
  room : Nat
  members : List Nat
deriving DecidableEq, Repr

/- Appointment.create_meet_instance: creates one Meet, adds the doctor
user then the patient user as members, stores the room on the
appointment; the nested save call happens with is_new false and has no
further side effect. -/
def create_meet_instance (a : Appointment) (roomId : Nat) :
    Appointment × MeetCreation :=
  ({ a with meet := some roomId }, ⟨roomId, [a.doctor.user, a.patient.user]⟩)

/- Appointment.save: on a new row in status scheduled or confirmed it
provisions the meeting room; otherwise it persists without side
effects.  The returned list records the rooms created by the call. -/
def Appointment.save (a : Appointment) (is_new : Bool) (roomId : Nat) :
    Appointment × List MeetCreation :=
  if is_new && (a.status == .scheduled || a.status == .confirmed) then
    let r := create_meet_instance a roomId
    (r.1, [r.2])
  else (a, [])

inductive PipelineError
  | validation (e : CreateError)
  | integrityError
deriving DecidableEq, Repr

/- POST create: serializer validation, then construction of the model
row (status defaults to scheduled, the serializer exposes no status
field) and the first save.  A missing resolved patient or doctor would
violate the non-null foreign keys at the database, outside serializer
validation. -/
def createAppointment (user? : Option User) (data : CreateInput) (now : Int)
    (existing : List Appointment) (newId roomId : Nat) (createdBy : Option Nat) :
    Except PipelineError (Appointment × List MeetCreation) :=
  match validateCreate user? data now existing with
  | .error e => .error (.validation e)
  | .ok d2 =>
    match d2.patient, d2.doctor with
    | some p, some d =>
      let a : Appointment :=
        { id := newId, patient := p, doctor := d,
          appointment_type := d2.appointment_type, status := .scheduled,
          scheduled_start_time := d2.scheduled_start_time,
          scheduled_end_time := d2.scheduled_end_time,
          timezone := d2.timezone, meet := none,
          technical_issues_reported := none, reason := d2.reason,
          notes := d2.notes, cancellation_reason := none,
          cancelled_by := none, created_by := createdBy }
      .ok (a.save true roomId)
    | _, _ => .error .integrityError

/- AppointmentUpdateSerializer: writable fields; meet is read only and
absent here.  A some field is present in the (partial) payload. -/
structure UpdatePayload where
  appointment_type : Option String
  status : Option AppointmentStatus
  scheduled_start_time : Option Int
  scheduled_end_time : Option Int
  timezone : Option String
  technical_issues_reported : Option String
  reason : Option String
  notes : Option String
  cancellation_reason : Option String
  cancelled_by : Option String
deriving DecidableEq, Repr

inductive UpdateError
  | invalidTransition (current target : AppointmentStatus)
  | invalidChoice (field : String)
deriving DecidableEq, Repr

/- AppointmentUpdateSerializer.validate_status: the transition table.
Statuses absent from the table fall through the membership check and
the value is returned unchanged. -/
def allowed_transitions (s : AppointmentStatus) :
    Option (List AppointmentStatus) :=
  match s with
  | .scheduled => some [.confirmed, .cancelled, .rescheduled]
  | .confirmed => some [.in_progress, .cancelled, .no_show]
  | .in_progress => some [.completed]
  | _ => none

def validate_status (current target : AppointmentStatus) :
    Except UpdateError AppointmentStatus :=
  match allowed_transitions current with
  | some allowed =>
    if allowed.contains target then .ok target
    else .error (.invalidTransition current target)
  | none => .ok target

def setOpt {α : Type} (new old : Option α) : Option α :=
  match new with
  | some v => some v
  | none => old

/- PATCH update through AppointmentUpdateSerializer: field-level
validation (the status transition check, and the generated choice
fields for cancelled_by and appointment_type), then assignment of every
supplied field.  No cross-field validation exists on this serializer. -/
def applyUpdate (a : Appointment) (p : UpdatePayload) :
    Except UpdateError Appointment :=
  match (match p.status with
         | some s => validate_status a.status s
         | none => .ok a.status) with
  | .error e => .error e
  | .ok _ =>
    if (match p.cancelled_by with
        | some c => !(cancelledByChoices.contains c)
        | none => false) then .error (.invalidChoice "cancelled_by")
    else if (match p.appointment_type with
             | some t => !(appointmentTypeChoices.contains t)
             | none => false) then .error (.invalidChoice "appointment_type")
    else .ok { a with
      appointment_type := p.appointment_type.getD a.appointment_type,
      status := p.status.getD a.status,
      scheduled_start_time := p.scheduled_start_time.getD a.scheduled_start_time,
      scheduled_end_time := p.scheduled_end_time.getD a.scheduled_end_time,
      timezone := p.timezone.getD a.timezone,
      technical_issues_reported :=
        setOpt p.technical_issues_reported a.technical_issues_reported,
      reason := p.reason.getD a.reason,
      notes := setOpt p.notes a.notes,
      cancellation_reason := setOpt p.cancellation_reason a.cancellation_reason,
      cancelled_by := setOpt p.cancelled_by a.cancelled_by }

/- HTTP outcomes of the view actions. -/
inductive ApiResult
  | ok (appointment : Appointment)
  | badRequest (detail : String)
  | forbidden (detail : String)
deriving DecidableEq, Repr

def ApiResult.isOk : ApiResult → Bool
  | .ok _ => true
  | _ => false

/- AppointmentViewSet.cancel: can_cancel gate, then the cancel
serializer (cancellation_reason is a required, non-blank CharField),
then assignment of status, reason and the raw caller role. -/
def cancel (a : Appointment) (user : User)
    (cancellation_reason : Option String) (now : Int) : ApiResult :=
  if !(a.can_cancel now) then
    .badRequest "This appointment cannot be cancelled"
  else
    match cancellation_reason with
    | none => .badRequest "cancellation_reason is required"
    | some r =>
      if r == "" then .badRequest "cancellation_reason may not be blank"
      else .ok { a with status := .cancelled,
                        cancellation_reason := some r,
                        cancelled_by := some user.role }

/- AppointmentViewSet.confirm -/
def confirm (a : Appointment) : ApiResult :=
  if a.status != .scheduled then
    .badRequest "Only scheduled appointments can be confirmed"
  else .ok { a with status := .confirmed }

/- AppointmentViewSet.start_appointment -/
def start_appointment (a : Appointment) (user : User) : ApiResult :=
  match user.doctor_profile with
  | none => .forbidden "Only the assigned doctor can start this appointment"
  | some d =>
    if a.doctor.id != d.id then
      .forbidden "Only the assigned doctor can start this appointment"
    else if a.status != .confirmed then
      .badRequest "Only confirmed appointments can be started"
    else .ok { a with status := .in_progress }

/- Note concatenation of AppointmentViewSet.complete_appointment: the
request notes (empty string when absent) are appended to the existing
notes under Python truthiness. -/
def appendNotes (prior : Option String) (notes : String) : Option String :=
  if notes == "" then prior
  else
    match prior with
    | some s => if s == "" then some notes else some (s ++ "\n\n" ++ notes)
    | none => some notes

/- AppointmentViewSet.complete_appointment -/
def complete_appointment (a : Appointment) (user : User) (notes : String) :
    ApiResult :=
  match user.doctor_profile with
  | none => .forbidden "Only the assigned doctor can complete this appointment"
  | some d =>
    if a.doctor.id != d.id then
      .forbidden "Only the assigned doctor can complete this appointment"
    else if a.status != .in_progress then
      .badRequest "Only in-progress appointments can be completed"
    else .ok { a with notes := appendNotes a.notes notes, status := .completed }

/- AppointmentViewSet.report_issue -/
def report_issue (a : Appointment) (issue : String) : ApiResult :=
  if issue == "" then .badRequest "Issue description is required"
  else .ok { a with technical_issues_reported :=
    match a.technical_issues_reported with
    | some t => if t == "" then some issue else some (t ++ "\n\n" ++ issue)
    | none => some issue }

/- The hospital branch of get_queryset filters doctor hospital against
user.profile; a profile object of another model never matches a
hospital foreign key, and a None profile matches doctors without a
hospital. -/
def hospitalFilterMatch (a : Appointment) (p? : Option ProfileRef) : Bool :=
  match p? with
  | some (.hospitalP h) => a.doctor.hospital == some h
  | some _ => false
  | none => a.doctor.hospital == none

/- AppointmentViewSet.get_queryset: the role cascade.  A user with none
of the profiles falls through; staff keep the full queryset, everyone
else gets the empty one. -/
def get_queryset (u : User) (qs : List Appointment) : List Appointment :=
  match u.doctor_profile with
  | some d => qs.filter (fun a => a.doctor.id == d.id)
  | none =>
    match u.patient_profile with
    | some p => qs.filter (fun a => a.patient.id == p.id)
    | none =>
      match u.hospital_profile with
      | some _ => qs.filter (fun a => hospitalFilterMatch a u.profile)
      | none =>
        if u.admin_profile.isSome then qs
        else if !u.is_staff then []
        else qs

/- Success test on serializer outcomes. -/
def isOkE {ε α : Type} : Except ε α → Bool
  | .ok _ => true
  | .error _ => false

/- Concrete fixtures used by witnesses and counterexamples. -/
def exDoctor : Doctor := ⟨1, 10, some 100⟩

def exPatient : Patient := ⟨2, 20⟩

def exAppt : Appointment :=
  { id := 0, patient := exPatient, doctor := exDoctor,
    appointment_type := "consultation", status := .scheduled,
    scheduled_start_time := 0, scheduled_end_time := 3600,
    timezone := "UTC", meet := some 7, technical_issues_reported := none,
    reason := "checkup", notes := none, cancellation_reason := none,
    cancelled_by := none, created_by := none }

def exPatientUser : User :=
  { role := "patient", doctor_profile := none,
    patient_profile := some exPatient, hospital_profile := none,
    admin_profile := none, is_staff := false }

def exDoctorUser : User :=
  { role := "doctor", doctor_profile := some exDoctor,
    patient_profile := none, hospital_profile := none,
    admin_profile := none, is_staff := false }

def c1Data : CreateInput :=
  { patient := none, doctor := some exDoctor,
    appointment_type := "consultation", scheduled_start_time := 3600,
    scheduled_end_time := 7200, timezone := "UTC", reason := "checkup",
    notes := none }

def c1Resolved : CreateInput := { c1Data with patient := some exPatient }

/- Helper lemmas about the create validators. -/
theorem resolveParties_times (user : User) (data d2 : CreateInput)
    (h : resolveParties user data = Except.ok d2) :
    d2.scheduled_start_time = data.scheduled_start_time ∧
    d2.scheduled_end_time = data.scheduled_end_time := by
  unfold resolveParties at h
  repeat' split at h
  all_goals first
    | exact Except.noConfusion h
    | (injection h with h2; subst h2; exact ⟨rfl, rfl⟩)

theorem validate_pre_ok_times (user? : Option User) (data : CreateInput)
    (now : Int) (d2 : CreateInput)
    (h : validate_pre user? data now = Except.ok d2) :
    d2.scheduled_start_time < d2.scheduled_end_time ∧
    now ≤ d2.scheduled_start_time := by
  unfold validate_pre at h
  repeat' split at h
  all_goals first
    | exact Except.noConfusion h
    | (injection h with h2; subst h2; omega)

theorem validateCreate_ok_pre (user? : Option User) (data : CreateInput)
    (now : Int) (existing : List Appointment) (d2 : CreateInput)
    (h : validateCreate user? data now existing = Except.ok d2) :
    validate_pre user? data now = Except.ok d2 := by
  unfold validateCreate at h
  split at h
  · exact Except.noConfusion h
  · split at h
    · split at h
      · exact Except.noConfusion h
      · injection h with h2
        subst h2
        assumption
    · injection h with h2
      subst h2
      assumption

/-- C1: given a creation request whose authentication, role resolution
and temporal checks pass (validate_pre succeeds) and whose resolved
doctor is doc, the full validation fails citing doctor unavailability
exactly when some existing appointment of doc in an active status
satisfies existing.start < new.end and existing.end > new.start, and
succeeds exactly when none does; concretely, a candidate interval
starting at the end point of an existing active appointment of the
same doctor does not conflict and the creation validates. -/
theorem create_conflict_iff (user? : Option User) (data : CreateInput)
    (now : Int) (existing : List Appointment) (d2 : CreateInput) (doc : Doctor)
    (hpre : validate_pre user? data now = Except.ok d2)
    (hdoc : d2.doctor = some doc) :
    (validateCreate user? data now existing =
        Except.error CreateError.doctorUnavailable ↔
      conflictExists existing doc d2.scheduled_start_time
        d2.scheduled_end_time = true)
    ∧ (isOkE (validateCreate user? data now existing) = true ↔
      conflictExists existing doc d2.scheduled_start_time
        d2.scheduled_end_time = false)
    ∧ validateCreate (some exPatientUser) c1Data 0 [exAppt] =
        Except.ok c1Resolved := by
  refine ⟨?_, ?_, by rfl⟩
  · cases hc : conflictExists existing doc d2.scheduled_start_time
        d2.scheduled_end_time <;>
      simp [validateCreate, hpre, hdoc, hc]
  · cases hc : conflictExists existing doc d2.scheduled_start_time
        d2.scheduled_end_time <;>
      simp [validateCreate, hpre, hdoc, hc, isOkE]

theorem create_conflict_iff_witness :
    validateCreate (some exPatientUser) c1Data 0 [exAppt] =
      Except.ok c1Resolved :=
  (create_conflict_iff (some exPatientUser) c1Data 0 [exAppt] c1Resolved
    exDoctor (by rfl) (by rfl)).2.2

/- C2 fixtures: a partial update that moves the end time before the
start time, and the created appointment of the clean creation run. -/
def c2Payload : UpdatePayload :=
  { appointment_type := none, status := none, scheduled_start_time := none,
    scheduled_end_time := some (-1), timezone := none,
    technical_issues_reported := none, reason := none, notes := none,
    cancellation_reason := none, cancelled_by := none }

def c2After : Appointment := { exAppt with scheduled_end_time := -1 }

def c2Created : Appointment :=
  { id := 5, patient := exPatient, doctor := exDoctor,
    appointment_type := "consultation", status := .scheduled,
    scheduled_start_time := 3600, scheduled_end_time := 7200,
    timezone := "UTC", meet := some 9, technical_issues_reported := none,
    reason := "checkup", notes := none, cancellation_reason := none,
    cancelled_by := none, created_by := none }

/-- C2 counterexample: the update serializer performs no temporal
ordering check, so a successful partial update can leave
scheduled_end_time at or before scheduled_start_time: updating the
appointment [0, 3600) with an end time of -1 succeeds and yields end
time -1 below the start time 0. -/
theorem update_accepts_inverted_times :
    applyUpdate exAppt c2Payload = Except.ok c2After ∧
    c2After.scheduled_end_time ≤ c2After.scheduled_start_time :=
  ⟨rfl, by norm_num [c2After, exAppt]⟩

/-- C2 amended: scheduled_end_time > scheduled_start_time holds after
every successful create operation; the update serializer does not
re-validate the ordering, so it is not guaranteed after updates. -/
theorem create_end_after_start (user? : Option User) (data : CreateInput)
    (now : Int) (existing : List Appointment) (newId roomId : Nat)
    (createdBy : Option Nat) (a : Appointment) (meets : List MeetCreation)
    (h : createAppointment user? data now existing newId roomId createdBy =
      Except.ok (a, meets)) :
    a.scheduled_end_time > a.scheduled_start_time := by
  unfold createAppointment at h
  split at h
  · exact Except.noConfusion h
  · rename_i d2 hv
    have hp := validateCreate_ok_pre user? data now existing d2 hv
    have ht := validate_pre_ok_times user? data now d2 hp
    split at h
    · rename_i p d hP hD
      simp only [Appointment.save, create_meet_instance] at h
      injection h with h2
      simp at h2
      obtain ⟨h3, h4⟩ := h2
      subst h3
      simpa using ht.1
    · exact Except.noConfusion h

theorem create_end_after_start_witness :
    c2Created.scheduled_end_time > c2Created.scheduled_start_time :=
  create_end_after_start (some exPatientUser) c1Data 0 [] 5 9 none
    c2Created [⟨9, [10, 20]⟩] (by rfl)

/- C3 fixtures: a completed appointment and a payload asking to move it
back to scheduled. -/
def c3Appt : Appointment := { exAppt with status := .completed }

def c3Payload : UpdatePayload :=
  { appointment_type := none, status := some .scheduled,
    scheduled_start_time := none, scheduled_end_time := none,
    timezone := none, technical_issues_reported := none, reason := none,
    notes := none, cancellation_reason := none, cancelled_by := none }

/-- C3 counterexample: the transition table omits the terminal
statuses, and validate_status only checks targets when the current
status is a key of the table, so an update moving a completed
appointment back to scheduled is accepted instead of failing. -/
theorem terminal_status_update_accepted :
    applyUpdate c3Appt c3Payload =
      Except.ok { c3Appt with status := .scheduled } := by
  rfl

/-- C3 amended: when the current status is scheduled, confirmed or
in_progress the status check accepts exactly the targets the table
lists (scheduled to confirmed, cancelled or rescheduled; confirmed to
in_progress, cancelled or no_show; in_progress to completed); when the
current status is one of the terminal statuses completed, cancelled,
no_show or rescheduled, the check accepts every target status. -/
theorem status_transition_rule (current target : AppointmentStatus) :
    isOkE (validate_status current target) = true ↔
      ((current = .scheduled →
          (target = .confirmed ∨ target = .cancelled ∨ target = .rescheduled)) ∧
       (current = .confirmed →
          (target = .in_progress ∨ target = .cancelled ∨ target = .no_show)) ∧
       (current = .in_progress → target = .completed)) := by
  cases current <;> cases target <;> decide

theorem status_transition_rule_witness :
    isOkE (validate_status AppointmentStatus.completed
      AppointmentStatus.scheduled) = true :=
  (status_transition_rule AppointmentStatus.completed
    AppointmentStatus.scheduled).mpr (by decide)

/- Shape lemmas: what a successful view action did. -/
theorem confirm_ok_dest (a a2 : Appointment)
    (h : confirm a = ApiResult.ok a2) :
    a.status = .scheduled ∧ a2 = { a with status := .confirmed } := by
  unfold confirm at h
  split at h
  · exact ApiResult.noConfusion h
  · rename_i hcond
    injection h with h2
    subst h2
    simp_all

theorem cancel_ok_dest (a a2 : Appointment) (user : User)
    (reason : Option String) (now : Int)
    (h : cancel a user reason now = ApiResult.ok a2) :
    a.can_cancel now = true ∧ ∃ r, r ≠ "" ∧ reason = some r ∧
      a2 = { a with status := .cancelled, cancellation_reason := some r,
                    cancelled_by := some user.role } := by
  unfold cancel at h
  repeat' split at h
  all_goals first
    | exact ApiResult.noConfusion h
    | (injection h with h2; subst h2; refine ⟨by simp_all, _, by simp_all, rfl, rfl⟩)

theorem start_ok_dest (a a2 : Appointment) (user : User)
    (h : start_appointment a user = ApiResult.ok a2) :
    (∃ d, user.doctor_profile = some d ∧ a.doctor.id = d.id) ∧
    a.status = .confirmed ∧ a2 = { a with status := .in_progress } := by
  unfold start_appointment at h
  repeat' split at h
  all_goals first
    | exact ApiResult.noConfusion h
    | (injection h with h2; subst h2; rename_i x d hd hne hst;
       exact ⟨⟨d, hd, by simp_all⟩, by simp_all, rfl⟩)

theorem complete_ok_dest (a a2 : Appointment) (user : User) (notes : String)
    (h : complete_appointment a user notes = ApiResult.ok a2) :
    (∃ d, user.doctor_profile = some d ∧ a.doctor.id = d.id) ∧
    a.status = .in_progress ∧
    a2 = { a with notes := appendNotes a.notes notes, status := .completed } := by
  unfold complete_appointment at h
  repeat' split at h
  all_goals first
    | exact ApiResult.noConfusion h
    | (injection h with h2; subst h2; rename_i x d hd hne hst;
       exact ⟨⟨d, hd, by simp_all⟩, by simp_all, rfl⟩)

theorem report_issue_ok_dest (a a2 : Appointment) (issue : String)
    (h : report_issue a issue = ApiResult.ok a2) :
    issue ≠ "" ∧ a2 = { a with technical_issues_reported :=
      match a.technical_issues_reported with
      | some t => if t == "" then some issue else some (t ++ "\n\n" ++ issue)
      | none => some issue } := by
  unfold report_issue at h
  split at h
  · exact ApiResult.noConfusion h
  · rename_i hcond
    injection h with h2
    subst h2
    exact ⟨by simp_all, rfl⟩

theorem applyUpdate_ok_meet (a a2 : Appointment) (p : UpdatePayload)
    (h : applyUpdate a p = Except.ok a2) : a2.meet = a.meet := by
  unfold applyUpdate at h
  repeat' split at h
  all_goals first
    | exact Except.noConfusion h
    | (injection h with h2; subst h2; rfl)

/-- C4: confirm succeeds exactly when the current status is scheduled,
on success it sets the status to confirmed, and a second confirm on the
result of a successful confirm fails with the state-transition message
because the status is no longer scheduled. -/
theorem confirm_rule (a : Appointment) :
    (ApiResult.isOk (confirm a) = true ↔ a.status = .scheduled)
    ∧ (a.status = .scheduled →
        confirm a = ApiResult.ok { a with status := .confirmed })
    ∧ (∀ a2, confirm a = ApiResult.ok a2 →
        confirm a2 =
          ApiResult.badRequest "Only scheduled appointments can be confirmed") := by
  refine ⟨?_, ?_, ?_⟩
  · by_cases h : a.status = .scheduled <;>
      simp [confirm, h, ApiResult.isOk]
  · intro h
    simp [confirm, h]
  · intro a2 h2
    obtain ⟨hs, ha⟩ := confirm_ok_dest a a2 h2
    subst ha
    simp [confirm]

theorem confirm_rule_witness :
    confirm { exAppt with status := AppointmentStatus.confirmed } =
      ApiResult.badRequest "Only scheduled appointments can be confirmed" :=
  (confirm_rule exAppt).2.2 { exAppt with status := AppointmentStatus.confirmed }
    ((confirm_rule exAppt).2.1 rfl)

/-- C5: cancel succeeds exactly when can_cancel holds (status scheduled
or confirmed and the end time not yet past) and the request carries a
non-blank cancellation reason; on success it sets status to cancelled,
stores the supplied reason and records cancelled_by as the caller role;
a scheduled appointment whose end time has passed cannot be
cancelled. -/
theorem cancel_rule (a : Appointment) (user : User) (reason : Option String)
    (now : Int) :
    (ApiResult.isOk (cancel a user reason now) = true ↔
      (a.can_cancel now = true ∧ ∃ r, reason = some r ∧ r ≠ ""))
    ∧ (∀ r, reason = some r → r ≠ "" → a.can_cancel now = true →
        cancel a user reason now = ApiResult.ok
          { a with status := .cancelled, cancellation_reason := some r,
                   cancelled_by := some user.role })
    ∧ (a.status = .scheduled → a.is_past now = true →
        ApiResult.isOk (cancel a user reason now) = false) := by
  refine ⟨?_, ?_, ?_⟩
  · cases hc : a.can_cancel now
    · simp [cancel, hc, ApiResult.isOk]
    · cases reason with
      | none => simp [cancel, hc, ApiResult.isOk]
      | some r =>
        by_cases hr : r = "" <;> simp [cancel, hc, hr, ApiResult.isOk]
  · intro r hr hne hc
    subst hr
    simp [cancel, hc, hne]
  · intro hs hp
    have hc : a.can_cancel now = false := by
      simp [Appointment.can_cancel, hp]
    simp [cancel, hc, ApiResult.isOk]

theorem cancel_rule_witness :
    cancel exAppt exPatientUser (some "feeling better") 0 = ApiResult.ok
      { exAppt with status := .cancelled,
                    cancellation_reason := some "feeling better",
                    cancelled_by := some "patient" } ∧
    ApiResult.isOk (cancel { exAppt with scheduled_end_time := -5 }
      exPatientUser (some "feeling better") 0) = false :=
  ⟨(cancel_rule exAppt exPatientUser (some "feeling better") 0).2.1
      "feeling better" rfl (by decide) (by decide),
   (cancel_rule { exAppt with scheduled_end_time := -5 } exPatientUser
      (some "feeling better") 0).2.2 rfl (by decide)⟩

/- C6 fixtures: a generic update writing only a cancellation reason. -/
def c6Payload : UpdatePayload :=
  { appointment_type := none, status := none, scheduled_start_time := none,
    scheduled_end_time := none, timezone := none,
    technical_issues_reported := none, reason := none, notes := none,
    cancellation_reason := some "changed plans", cancelled_by := none }

def c6After : Appointment :=
  { exAppt with cancellation_reason := some "changed plans" }

/-- C6 counterexample: the generic update serializer exposes
cancellation_reason as a plain writable field with no coupling to the
status, so a successful update sets a cancellation reason on a
scheduled appointment while cancelled_by stays unset and the status
stays scheduled, breaking the set-together-only-when-cancelled
invariant. -/
theorem update_sets_reason_without_cancel :
    applyUpdate exAppt c6Payload = Except.ok c6After ∧
    c6After.cancellation_reason = some "changed plans" ∧
    c6After.cancelled_by = none ∧
    c6After.status = AppointmentStatus.scheduled :=
  ⟨rfl, rfl, rfl, rfl⟩

/-- C6 amended: the named cancel operation does establish the
discipline — on success it sets status to cancelled together with a
non-empty cancellation reason and cancelled_by equal to the caller
role, which lies in the patient/doctor/system enumeration whenever the
caller role does — and confirm, start, complete and report-issue never
touch either field; but the generic update can write
cancellation_reason (or cancelled_by) independently of the status, so
the invariant does not hold across all core operations. -/
theorem cancellation_fields_discipline (a a2 : Appointment) (user : User)
    (reason : Option String) (now : Int) (notes issue : String) :
    (cancel a user reason now = ApiResult.ok a2 →
      a2.status = .cancelled ∧
      (∃ r, r ≠ "" ∧ a2.cancellation_reason = some r) ∧
      a2.cancelled_by = some user.role)
    ∧ (user.role ∈ cancelledByChoices →
        cancel a user reason now = ApiResult.ok a2 →
        ∃ c, a2.cancelled_by = some c ∧ c ∈ cancelledByChoices)
    ∧ (confirm a = ApiResult.ok a2 →
        a2.cancellation_reason = a.cancellation_reason ∧
        a2.cancelled_by = a.cancelled_by)
    ∧ (start_appointment a user = ApiResult.ok a2 →
        a2.cancellation_reason = a.cancellation_reason ∧
        a2.cancelled_by = a.cancelled_by)
    ∧ (complete_appointment a user notes = ApiResult.ok a2 →
        a2.cancellation_reason = a.cancellation_reason ∧
        a2.cancelled_by = a.cancelled_by)
    ∧ (report_issue a issue = ApiResult.ok a2 →
        a2.cancellation_reason = a.cancellation_reason ∧
        a2.cancelled_by = a.cancelled_by) := by
  refine ⟨?_, ?_, ?_, ?_, ?_, ?_⟩
  · intro h
    obtain ⟨hc, r, hr, hreq, ha⟩ := cancel_ok_dest a a2 user reason now h
    subst ha
    exact ⟨rfl, ⟨r, hr, rfl⟩, rfl⟩
  · intro hrole h
    obtain ⟨hc, r, hr, hreq, ha⟩ := cancel_ok_dest a a2 user reason now h
    subst ha
    exact ⟨user.role, rfl, hrole⟩
  · intro h
    obtain ⟨hs, ha⟩ := confirm_ok_dest a a2 h
    subst ha
    exact ⟨rfl, rfl⟩
  · intro h
    obtain ⟨hd, hs, ha⟩ := start_ok_dest a a2 user h
    subst ha
    exact ⟨rfl, rfl⟩
  · intro h
    obtain ⟨hd, hs, ha⟩ := complete_ok_dest a a2 user notes h
    subst ha
    exact ⟨rfl, rfl⟩
  · intro h
    obtain ⟨hi, ha⟩ := report_issue_ok_dest a a2 issue h
    subst ha
    exact ⟨rfl, rfl⟩

def c6CancelResult : Appointment :=
  { exAppt with
    status := .cancelled
    cancellation_reason := some "recovered"
    cancelled_by := some "patient" }

theorem cancellation_fields_discipline_witness :
    ∃ c, c6CancelResult.cancelled_by = some c ∧ c ∈ cancelledByChoices :=
  (cancellation_fields_discipline exAppt c6CancelResult
      exPatientUser (some "recovered") 0 "" "").2.1
    (by decide) (by decide)

/-- C7: complete succeeds exactly when the caller is the assigned
doctor and the appointment is in progress; on success the status
becomes completed, and non-empty supplied notes are appended to
existing non-empty notes with a blank-line separator, or stored
verbatim when no prior notes exist. -/
theorem complete_rule (a : Appointment) (user : User) (notes : String) :
    (ApiResult.isOk (complete_appointment a user notes) = true ↔
      ((∃ d, user.doctor_profile = some d ∧ a.doctor.id = d.id) ∧
        a.status = .in_progress))
    ∧ (∀ a2, complete_appointment a user notes = ApiResult.ok a2 →
        a2.status = .completed)
    ∧ (notes ≠ "" → ∀ s, a.notes = some s → s ≠ "" →
        ∀ a2, complete_appointment a user notes = ApiResult.ok a2 →
          a2.notes = some (s ++ "\n\n" ++ notes))
    ∧ (notes ≠ "" → (a.notes = none ∨ a.notes = some "") →
        ∀ a2, complete_appointment a user notes = ApiResult.ok a2 →
          a2.notes = some notes) := by
  refine ⟨?_, ?_, ?_, ?_⟩
  · constructor
    · intro h
      cases hres : complete_appointment a user notes with
      | ok a2 =>
        obtain ⟨hd, hs, ha⟩ := complete_ok_dest a a2 user notes hres
        exact ⟨hd, hs⟩
      | badRequest m => rw [hres] at h; exact absurd h (by simp [ApiResult.isOk])
      | forbidden m => rw [hres] at h; exact absurd h (by simp [ApiResult.isOk])
    · rintro ⟨⟨d, hd, hid⟩, hs⟩
      simp [complete_appointment, hd, hid, hs, ApiResult.isOk]
  · intro a2 h
    obtain ⟨hd, hs, ha⟩ := complete_ok_dest a a2 user notes h
    subst ha
    rfl
  · intro hn s hsome hsne a2 h
    obtain ⟨hd, hs, ha⟩ := complete_ok_dest a a2 user notes h
    subst ha
    simp [appendNotes, hn, hsome, hsne]
  · intro hn hnone a2 h
    obtain ⟨hd, hs, ha⟩ := complete_ok_dest a a2 user notes h
    subst ha
    cases hnone with
    | inl h0 => simp [appendNotes, hn, h0]
    | inr h0 => simp [appendNotes, hn, h0]

def c7Appt : Appointment :=
  { exAppt with status := .in_progress, notes := some "intake done" }

theorem complete_rule_witness :
    ApiResult.isOk (complete_appointment c7Appt exDoctorUser "resolved") = true :=
  (complete_rule c7Appt exDoctorUser "resolved").1.mpr
    ⟨⟨exDoctor, rfl, rfl⟩, rfl⟩

/- Role-dispatch shape lemmas. -/
theorem resolveParties_doctor (user : User) (data d2 : CreateInput)
    (hrole : user.role = "doctor")
    (h : resolveParties user data = Except.ok d2) :
    d2.doctor = user.doctor_profile ∧ d2.patient = data.patient := by
  unfold resolveParties at h
  simp only [hrole] at h
  simp at h
  split at h
  · exact Except.noConfusion h
  · injection h with h2
    subst h2
    exact ⟨rfl, rfl⟩

theorem resolveParties_patient (user : User) (data d2 : CreateInput)
    (hrole : user.role = "patient")
    (h : resolveParties user data = Except.ok d2) :
    d2.patient = user.patient_profile ∧ d2.doctor = data.doctor := by
  unfold resolveParties at h
  simp only [hrole] at h
  simp at h
  split at h
  · exact Except.noConfusion h
  · injection h with h2
    subst h2
    exact ⟨rfl, rfl⟩

theorem validate_pre_ok_resolve (user : User) (data : CreateInput)
    (now : Int) (d2 : CreateInput)
    (h : validate_pre (some user) data now = Except.ok d2) :
    resolveParties user data = Except.ok d2 := by
  unfold validate_pre at h
  repeat' split at h
  all_goals first
    | exact Except.noConfusion h
    | (injection h with h2; subst h2; simp_all)

/-- C8: when a doctor-role caller omits the patient the creation fails
validation, and on success the doctor side is the caller role-linked
doctor profile; when a patient-role caller omits the doctor it fails,
and on success the patient side is the caller patient profile; a caller
of any other role must supply both sides or validation fails; and every
appointment built by a successful creation is in status scheduled. -/
theorem create_role_resolution (user : User) (data : CreateInput) (now : Int)
    (existing : List Appointment) (newId roomId : Nat)
    (createdBy : Option Nat) :
    (user.role = "doctor" → data.patient = none →
      isOkE (validate_pre (some user) data now) = false)
    ∧ (user.role = "doctor" → ∀ d2,
        validate_pre (some user) data now = Except.ok d2 →
        d2.doctor = user.doctor_profile)
    ∧ (user.role = "patient" → data.doctor = none →
      isOkE (validate_pre (some user) data now) = false)
    ∧ (user.role = "patient" → ∀ d2,
        validate_pre (some user) data now = Except.ok d2 →
        d2.patient = user.patient_profile)
    ∧ (user.role ≠ "doctor" → user.role ≠ "patient" →
        (data.doctor = none ∨ data.patient = none) →
      isOkE (validate_pre (some user) data now) = false)
    ∧ (∀ a meets, createAppointment (some user) data now existing newId
        roomId createdBy = Except.ok (a, meets) → a.status = .scheduled) := by
  refine ⟨?_, ?_, ?_, ?_, ?_, ?_⟩
  · intro hrole hp
    cases hd : data.doctor <;>
      simp [validate_pre, resolveParties, hrole, hp, hd, isOkE]
  · intro hrole d2 h
    exact (resolveParties_doctor user data d2 hrole
      (validate_pre_ok_resolve user data now d2 h)).1
  · intro hrole hd
    cases hp : data.patient <;>
      simp [validate_pre, resolveParties, hrole, hp, hd, isOkE]
  · intro hrole d2 h
    exact (resolveParties_patient user data d2 hrole
      (validate_pre_ok_resolve user data now d2 h)).1
  · intro hd hp hor
    have hbd : (user.role == "doctor") = false := by
      simp [hd]
    have hbp : (user.role == "patient") = false := by
      simp [hp]
    rcases hor with h0 | h0 <;>
      cases hd2 : data.doctor <;> cases hp2 : data.patient <;>
        simp_all [validate_pre, resolveParties, isOkE]
  · intro a meets h
    unfold createAppointment at h
    split at h
    · exact Except.noConfusion h
    · split at h
      · injection h with h2
        simp [Appointment.save, create_meet_instance] at h2
        obtain ⟨h3, h4⟩ := h2
        subst h3
        rfl
      · exact Except.noConfusion h

def c8Data : CreateInput := { c1Data with patient := some exPatient, doctor := none }

def c8Resolved : CreateInput := { c8Data with doctor := some exDoctor }

theorem create_role_resolution_witness :
    c8Resolved.doctor = exDoctorUser.doctor_profile :=
  (create_role_resolution exDoctorUser c8Data 0 [] 5 9 none).2.1 rfl
    c8Resolved (by rfl)

/-- C9: a successful creation (whose resulting status is the scheduled
default, an active status) provisions exactly one meeting room with
exactly the two member additions doctor user and patient user and
stores the room reference on the appointment; a save of an existing row
provisions nothing; and every core operation (generic update, confirm,
start, complete, cancel, report-issue) leaves the stored room reference
unchanged. -/
theorem meet_provisioning (user? : Option User) (data : CreateInput)
    (now : Int) (existing : List Appointment) (newId roomId : Nat)
    (createdBy : Option Nat) (a a2 : Appointment)
    (meets : List MeetCreation) (user : User) (p : UpdatePayload)
    (reason : Option String) (notes issue : String) :
    (createAppointment user? data now existing newId roomId createdBy =
        Except.ok (a, meets) →
      meets = [⟨roomId, [a.doctor.user, a.patient.user]⟩] ∧
      a.meet = some roomId)
    ∧ (∀ rid, a.save false rid = (a, []))
    ∧ (applyUpdate a p = Except.ok a2 → a2.meet = a.meet)
    ∧ (confirm a = ApiResult.ok a2 → a2.meet = a.meet)
    ∧ (start_appointment a user = ApiResult.ok a2 → a2.meet = a.meet)
    ∧ (complete_appointment a user notes = ApiResult.ok a2 → a2.meet = a.meet)
    ∧ (cancel a user reason now = ApiResult.ok a2 → a2.meet = a.meet)
    ∧ (report_issue a issue = ApiResult.ok a2 → a2.meet = a.meet) := by
  refine ⟨?_, ?_, ?_, ?_, ?_, ?_, ?_, ?_⟩
  · intro h
    unfold createAppointment at h
    split at h
    · exact Except.noConfusion h
    · split at h
      · injection h with h2
        simp [Appointment.save, create_meet_instance] at h2
        obtain ⟨h3, h4⟩ := h2
        subst h3
        subst h4
        exact ⟨rfl, rfl⟩
      · exact Except.noConfusion h
  · intro rid
    simp [Appointment.save]
  · exact applyUpdate_ok_meet a a2 p
  · intro h
    obtain ⟨hs, ha⟩ := confirm_ok_dest a a2 h
    subst ha
    rfl
  · intro h
    obtain ⟨hd, hs, ha⟩ := start_ok_dest a a2 user h
    subst ha
    rfl
  · intro h
    obtain ⟨hd, hs, ha⟩ := complete_ok_dest a a2 user notes h
    subst ha
    rfl
  · intro h
    obtain ⟨hc, r, hr, hreq, ha⟩ := cancel_ok_dest a a2 user reason now h
    subst ha
    rfl
  · intro h
    obtain ⟨hi, ha⟩ := report_issue_ok_dest a a2 issue h
    subst ha
    rfl

theorem meet_provisioning_witness :
    ([⟨9, [10, 20]⟩] : List MeetCreation) =
      [⟨9, [c2Created.doctor.user, c2Created.patient.user]⟩] ∧
    c2Created.meet = some 9 :=
  (meet_provisioning (some exPatientUser) c1Data 0 [] 5 9 none c2Created
    exAppt [⟨9, [10, 20]⟩] exPatientUser c6Payload none "" "").1 (by rfl)

/-- C10: get_queryset scopes the visible set by the caller role before
any further filtering: a caller with a doctor profile sees exactly the
appointments where they are the doctor; otherwise a caller with a
patient profile sees exactly their own; otherwise a hospital-role
caller with a hospital profile sees exactly the appointments whose
doctor belongs to that hospital; otherwise an administrative caller
(admin profile or staff flag) sees all; any other caller sees none. -/
theorem role_scoped_visibility (u : User) (qs : List Appointment)
    (a : Appointment) :
    (∀ d, u.doctor_profile = some d →
      (a ∈ get_queryset u qs ↔ a ∈ qs ∧ a.doctor.id = d.id))
    ∧ (u.doctor_profile = none → ∀ p, u.patient_profile = some p →
      (a ∈ get_queryset u qs ↔ a ∈ qs ∧ a.patient.id = p.id))
    ∧ (u.doctor_profile = none → u.patient_profile = none →
        u.role = "hospital" → ∀ h, u.hospital_profile = some h →
      (a ∈ get_queryset u qs ↔ a ∈ qs ∧ a.doctor.hospital = some h))
    ∧ (u.doctor_profile = none → u.patient_profile = none →
        u.hospital_profile = none →
        (u.admin_profile ≠ none ∨ u.is_staff = true) →
      get_queryset u qs = qs)
    ∧ (u.doctor_profile = none → u.patient_profile = none →
        u.hospital_profile = none → u.admin_profile = none →
        u.is_staff = false →
      get_queryset u qs = []) := by
  refine ⟨?_, ?_, ?_, ?_, ?_⟩
  · intro d hd
    simp [get_queryset, hd, List.mem_filter]
  · intro h1 p hp
    simp [get_queryset, h1, hp, List.mem_filter]
  · intro h1 h2 hrole h hh
    simp [get_queryset, h1, h2, hh, List.mem_filter, hospitalFilterMatch,
      User.profile, hrole]
  · intro h1 h2 h3 h4
    cases h5 : u.admin_profile with
    | none =>
      rcases h4 with h4 | h4
      · exact absurd h5 h4
      · simp [get_queryset, h1, h2, h3, h5, h4]
    | some x =>
      simp [get_queryset, h1, h2, h3, h5]
  · intro h1 h2 h3 h4 h5
    simp [get_queryset, h1, h2, h3, h4, h5]

theorem role_scoped_visibility_witness :
    exAppt ∈ get_queryset exDoctorUser [exAppt] ↔
      exAppt ∈ [exAppt] ∧ exAppt.doctor.id = exDoctor.id :=
  (role_scoped_visibility exDoctorUser [exAppt] exAppt).1 exDoctor rfl
